import Mathlib

/-!
Verification development for the PSB CAN message codec
(`psb_can_msgs.py`).  The Python module translates between physical
engineering units and the device's raw fixed-point wire representation.
Physical quantities are embedded as exact rationals (the Python source
computes with binary floats; the scale constants and all claim-relevant
formulas are carried here as exact rationals), raw wire fields as
naturals/integers, byte payloads as lists of naturals, and the mutable
codec object as an explicit state record threaded through the setter and
decoder operations.
-/

namespace PsbCan

/-- Bit extraction helper `get_bit_by_idx(num, idx) = (num >> idx) & 1`. -/
def get_bit_by_idx (num idx : ℕ) : ℕ := (num >>> idx) &&& 1

/-- Bit test helper `is_bit_at(num, idx) = bool(get_bit_by_idx(num, idx))`. -/
def is_bit_at (num idx : ℕ) : Bool := get_bit_by_idx num idx = 1

/- Cycle-read arbitration ids (device → controller), class
`CycleReadIdAllocations`. -/
namespace CycleReadIdAllocations

def BASE_ID_CYCLE_READ : ℕ := 0x100

def STATUS : ℕ := BASE_ID_CYCLE_READ

def ACTUAL_VALUES : ℕ := 0x101

def SET_VALUES_PS : ℕ := 0x102

def LIMITS_1_PS : ℕ := 0x103

def LIMITS_2_PS : ℕ := 0x104

def SET_VALUES_EL : ℕ := 0x105

def LIMITS_1_EL : ℕ := 0x106

end CycleReadIdAllocations

/- Cycle-send arbitration ids (controller → device), class
`CycleSendIdAllocations`. -/
namespace CycleSendIdAllocations

def BASE_ID_CYCLE_SEND : ℕ := 0x200

def CONTROL : ℕ := BASE_ID_CYCLE_SEND

def SET_VALUES_1_PS : ℕ := 0x201

def SET_VALUES_1_EL : ℕ := 0x202

end CycleSendIdAllocations

/-- Scale factor `VALUE_SCALE['u'] = 0.019073777`, as an exact rational. -/
def scale_u : ℚ := 19073777 / 1000000000

/-- Scale factor `VALUE_SCALE['i'] = 0.001525902`, as an exact rational. -/
def scale_i : ℚ := 1525902 / 1000000000

/-- Scale factor `VALUE_SCALE['p'] = 0.572213321`, as an exact rational. -/
def scale_p : ℚ := 572213321 / 1000000000

/-- Scale factor `VALUE_SCALE['r'] = 0.012397955`, as an exact rational. -/
def scale_r : ℚ := 12397955 / 1000000000

/-- Class attribute `PsbCanMsgs.DEVICES_AMOUNT = 3`.  The three message
builders are classmethods and always read this class attribute
(`cls.DEVICES_AMOUNT`), even when the constructor stored a different
`device_amount` on the instance; the decode methods read the instance
attribute instead, which is carried separately in `PsbState.devices`. -/
def DEVICES_AMOUNT : ℕ := 3

/-- Python `int(q)` on a real value: truncation toward zero. -/
def pyTrunc (q : ℚ) : ℤ := if 0 ≤ q then ⌊q⌋ else ⌈q⌉

/-- Big-endian two-byte encoding of a raw value `v < 65536`, as produced
by one `H` field of `struct.pack` with the `>` (network order) prefix. -/
def be16 (v : ℕ) : List ℕ := [v / 256, v % 256]

/-- One unsigned 16-bit field of `struct.pack('>H…', v)`: `struct`
raises on a value outside `0 ≤ v < 65536`, modelled by `none`. -/
def packH (v : ℤ) : Option (List ℕ) :=
  if 0 ≤ v ∧ v < 65536 then some (be16 v.toNat) else none

/-- Big-endian 16-bit read at byte offset `k`, as performed by one `H`
field of `struct.unpack` with the `>` prefix. -/
def be16At (d : List ℕ) (k : ℕ) : ℕ := 256 * d.getD k 0 + d.getD (k + 1) 0

/-- Little-endian 16-bit read at byte offset `k`, as performed by one
`H` field of `struct.unpack` with the `<` prefix. -/
def le16At (d : List ℕ) (k : ℕ) : ℕ := d.getD k 0 + 256 * d.getD (k + 1) 0

/-- Python `int.from_bytes(data, byteorder='big')`. -/
def int_from_bytes_be (d : List ℕ) : ℕ := d.foldl (fun a b => a * 256 + b) 0

/-- A `can.Message`: arbitration id, declared data length code, payload
bytes.  Immutable once built. -/
structure CanMessage where
  arbitration_id : ℕ
  dlc : ℕ
  data : List ℕ
  deriving DecidableEq, Repr

/-- Builder `PsbCanMsgs._status_msg(output, remote_control)`:
`value = output*2 + remote_control`, payload `struct.pack('>H', value << 8)`
with arbitration id `CONTROL` and dlc 8.  `none` models the `struct`
error on an out-of-range field. -/
def status_msg (output remote_control : ℕ) : Option CanMessage :=
  let value := output * 2 + remote_control
  (packH ((value : ℤ) * 256)).map
    (fun d => ⟨CycleSendIdAllocations.CONTROL, 8, d⟩)

/-- Builder `PsbCanMsgs._set_sour_values(u, i, p=None, r=0)`:
`p` defaults to `u*i`; the `u`, `i`, `p` fields are divided by their
scale (and `i`, `p` additionally by `cls.DEVICES_AMOUNT`) and truncated
by `int(...)`; `r` is packed as given, with no scaling; payload is
`struct.pack('>HHHH', u, i, p, r)` under id `SET_VALUES_1_PS`. -/
def set_sour_values (u i : ℚ) (p : Option ℚ) (r : ℤ) : Option CanMessage :=
  let pv := p.getD (u * i)
  let uR := pyTrunc (u / scale_u)
  let iR := pyTrunc (i / scale_i / (DEVICES_AMOUNT : ℚ))
  let pR := pyTrunc (pv / scale_p / (DEVICES_AMOUNT : ℚ))
  match packH uR, packH iR, packH pR, packH r with
  | some a, some b, some c, some d =>
      some ⟨CycleSendIdAllocations.SET_VALUES_1_PS, 8, a ++ b ++ c ++ d⟩
  | _, _, _, _ => none

/-- Builder `PsbCanMsgs._set_sink_values(i, p, r=0)`: payload
`struct.pack('>HHH', i, p, r)` under id `SET_VALUES_1_EL`, with the same
scale and device-count division for `i` and `p` as the source builder. -/
def set_sink_values (i p : ℚ) (r : ℤ) : Option CanMessage :=
  let iR := pyTrunc (i / scale_i / (DEVICES_AMOUNT : ℚ))
  let pR := pyTrunc (p / scale_p / (DEVICES_AMOUNT : ℚ))
  match packH iR, packH pR, packH r with
  | some a, some b, some c =>
      some ⟨CycleSendIdAllocations.SET_VALUES_1_EL, 8, a ++ b ++ c⟩
  | _, _, _ => none

/-- Decoded `ACTUAL_VALUES` mapping `{'u': …, 'i': …, 'p': …}`. -/
structure ActualVals where
  u : ℚ
  i : ℚ
  p : ℚ
  deriving DecidableEq, Repr

/-- Decoded `SET_VALUES_PS` mapping `{'u': …, 'i': …, 'p': …, 'r': …}`. -/
structure SourVals where
  u : ℚ
  i : ℚ
  p : ℚ
  r : ℚ
  deriving DecidableEq, Repr

/-- Decoded `SET_VALUES_EL` mapping `{'i': …, 'p': …, 'r': …}`. -/
structure SinkVals where
  i : ℚ
  p : ℚ
  r : ℚ
  deriving DecidableEq, Repr

/-- Decoded `STATUS` flag mapping, one field per key of the dict built
by `_decode_status_msg`. -/
structure StatusVals where
  remote_control : Bool
  dc_input_terminal : Bool
  uir_mode : Bool
  uip_mode : Bool
  alarms : Bool
  alarm_msp_map : Bool
  alarm_ocd : Bool
  alarm_ocp : Bool
  alarm_opd : Bool
  alarm_opp : Bool
  alarm_ot : Bool
  alarm_ovd : Bool
  alarm_ovp : Bool
  rem_sb : Bool
  alarm_ucd : Bool
  alarm_uvd : Bool
  external_remote_sensing : Bool
  internal_remote_sensing : Bool
  function_gen_active : Bool
  master : Bool
  slave : Bool
  input_output : Bool
  sink_mode : Bool
  sour_mode : Bool
  deriving DecidableEq, Repr

/-- Exceptions escaping a decode call: `ValueError` for an unsupported
dispatch id, `ValueError` for a wrong arbitration id inside a decode
method, and `struct.error` for a payload whose length does not fit the
unpack format. -/
inductive DecodeErr where
  | unsupported_id : DecodeErr
  | wrong_arbitration_id : DecodeErr
  | struct_error : DecodeErr
  deriving DecidableEq, Repr

/-- Method `_decode_actual_values(msg)`: requires the `ACTUAL_VALUES`
arbitration id, unpacks `struct.unpack('>HHH', msg.data[:6])` (any
payload bytes past the first six are ignored; fewer than six bytes is a
`struct.error`), and scales raw counts to physical values; `i` and `p`
are multiplied by the instance attribute `DEVICES_AMOUNT`
(`devices` here). -/
def decode_actual_values (devices : ℕ) (msg : CanMessage) :
    Except DecodeErr ActualVals :=
  if msg.arbitration_id ≠ CycleReadIdAllocations.ACTUAL_VALUES then
    .error .wrong_arbitration_id
  else
    let d := msg.data.take 6
    if d.length = 6 then
      .ok ⟨(be16At d 0 : ℚ) * scale_u,
           (be16At d 2 : ℚ) * scale_i * (devices : ℚ),
           (be16At d 4 : ℚ) * scale_p * (devices : ℚ)⟩
    else .error .struct_error

/-- Method `_decode_status_msg(msg)`: requires the `STATUS` arbitration
id, reads the whole payload as one big-endian integer and extracts the
documented single-bit flags (four of them by complement). -/
def decode_status_msg (msg : CanMessage) : Except DecodeErr StatusVals :=
  if msg.arbitration_id ≠ CycleReadIdAllocations.STATUS then
    .error .wrong_arbitration_id
  else
    let n := int_from_bytes_be msg.data
    .ok { remote_control := is_bit_at n 31
          dc_input_terminal := is_bit_at n 30
          uir_mode := !is_bit_at n 28
          uip_mode := is_bit_at n 28
          alarms := is_bit_at n 27
          alarm_msp_map := is_bit_at n 26
          alarm_ocd := is_bit_at n 25
          alarm_ocp := is_bit_at n 24
          alarm_opd := is_bit_at n 18
          alarm_opp := is_bit_at n 17
          alarm_ot := is_bit_at n 16
          alarm_ovd := is_bit_at n 14
          alarm_ovp := is_bit_at n 13
          rem_sb := is_bit_at n 9
          alarm_ucd := is_bit_at n 8
          alarm_uvd := is_bit_at n 7
          external_remote_sensing := is_bit_at n 6
          internal_remote_sensing := !is_bit_at n 6
          function_gen_active := is_bit_at n 5
          master := is_bit_at n 4
          slave := !is_bit_at n 4
          input_output := is_bit_at n 3
          sink_mode := is_bit_at n 0
          sour_mode := !is_bit_at n 0 }

/-- Method `_decode_set_sour_values(msg)`: requires the `SET_VALUES_PS`
arbitration id, unpacks `struct.unpack('<HHHH', msg.data)` — four
unsigned 16-bit little-endian fields over exactly eight payload
bytes — and applies the same physical conversion as `ACTUAL_VALUES`
plus `r * scale_r`. -/
def decode_set_sour_values (devices : ℕ) (msg : CanMessage) :
    Except DecodeErr SourVals :=
  if msg.arbitration_id ≠ CycleReadIdAllocations.SET_VALUES_PS then
    .error .wrong_arbitration_id
  else if msg.data.length = 8 then
    .ok ⟨(le16At msg.data 0 : ℚ) * scale_u,
         (le16At msg.data 2 : ℚ) * scale_i * (devices : ℚ),
         (le16At msg.data 4 : ℚ) * scale_p * (devices : ℚ),
         (le16At msg.data 6 : ℚ) * scale_r⟩
  else .error .struct_error

/-- Method `_decode_set_sink_values(msg)`: requires the `SET_VALUES_EL`
arbitration id, unpacks `struct.unpack('<HHH', msg.data)` over exactly
six payload bytes, and applies the same conversions. -/
def decode_set_sink_values (devices : ℕ) (msg : CanMessage) :
    Except DecodeErr SinkVals :=
  if msg.arbitration_id ≠ CycleReadIdAllocations.SET_VALUES_EL then
    .error .wrong_arbitration_id
  else if msg.data.length = 6 then
    .ok ⟨(le16At msg.data 0 : ℚ) * scale_i * (devices : ℚ),
         (le16At msg.data 2 : ℚ) * scale_p * (devices : ℚ),
         (le16At msg.data 4 : ℚ) * scale_r⟩
  else .error .struct_error

/-- Stored source parameters `_set_sour_params` (`u`, `i`, `p`
physical setpoints, `r` the unscaled resistance value handed to
`struct.pack`). -/
structure SourParams where
  u : ℚ
  i : ℚ
  p : ℚ
  r : ℤ
  deriving DecidableEq, Repr

/-- Stored sink parameters `_set_sink_params`. -/
structure SinkParams where
  i : ℚ
  p : ℚ
  r : ℤ
  deriving DecidableEq, Repr

/-- Stored status parameters `_set_status_params`
(`remote_control` default 1, `output` default 0, kept as ints). -/
structure StatusParams where
  remote_control : ℕ
  output : ℕ
  deriving DecidableEq, Repr

/-- The mutable state of a `PsbCanMsgs` instance: parameter stores, the
three cached outgoing messages (also the values of `set_msgs_map`,
keyed `CONTROL`, `SET_VALUES_1_PS`, `SET_VALUES_1_EL`), the per-id
receive-time dict, the decoded-value caches (a `none` cache models the
initially empty dict), and the instance attribute `DEVICES_AMOUNT`. -/
structure PsbState where
  sour_params : SourParams
  sink_params : SinkParams
  status_params : StatusParams
  set_status_msg : Option CanMessage
  set_sour_msg : Option CanMessage
  set_sink_msg : Option CanMessage
  prev_recv_time : List (ℕ × ℚ)
  actual_vals : Option ActualVals
  set_sour_vals : Option SourVals
  set_sink_vals : Option SinkVals
  status_vals : Option StatusVals
  devices : ℕ
  deriving DecidableEq, Repr

/-- Python dict assignment `m[k] = v`: overwrite in place when the key
exists, append otherwise (dicts preserve insertion order). -/
def dict_set (m : List (ℕ × ℚ)) (k : ℕ) (v : ℚ) : List (ℕ × ℚ) :=
  if m.any (fun kv => kv.1 = k) then
    m.map (fun kv => if kv.1 = k then (k, v) else kv)
  else m ++ [(k, v)]

/-- Tuple `supported_read_can_ids`, in source order. -/
def supported_read_can_ids : List ℕ :=
  [CycleReadIdAllocations.ACTUAL_VALUES,
   CycleReadIdAllocations.STATUS,
   CycleReadIdAllocations.SET_VALUES_PS,
   CycleReadIdAllocations.SET_VALUES_EL]

/-- Constructor `PsbCanMsgs.__init__` with default parameter overrides:
zero source and sink setpoints, `remote_control = 1`, `output = 0`, the
three outgoing messages built from these defaults, every supported read
id time-stamped with the construction time `t0`, and empty value
caches. -/
def initState (t0 : ℚ) (device_amount : ℕ) : PsbState :=
  let sour : SourParams := ⟨0, 0, 0, 0⟩
  let sink : SinkParams := ⟨0, 0, 0⟩
  let status : StatusParams := ⟨1, 0⟩
  { sour_params := sour
    sink_params := sink
    status_params := status
    set_status_msg := status_msg status.output status.remote_control
    set_sour_msg := set_sour_values sour.u sour.i (some sour.p) sour.r
    set_sink_msg := set_sink_values sink.i sink.p sink.r
    prev_recv_time := supported_read_can_ids.map (fun k => (k, t0))
    actual_vals := none
    set_sour_vals := none
    set_sink_vals := none
    status_vals := none
    devices := device_amount }

/-- Method `update_set_sour_msg`: rebuild `_set_sour_msg` from the
stored source parameters (always passing the stored `p`) and return
it. -/
def update_set_sour_msg (s : PsbState) : PsbState × Option CanMessage :=
  let m := set_sour_values s.sour_params.u s.sour_params.i
    (some s.sour_params.p) s.sour_params.r
  ({ s with set_sour_msg := m }, m)

/-- Method `update_set_sink_msg`. -/
def update_set_sink_msg (s : PsbState) : PsbState × Option CanMessage :=
  let m := set_sink_values s.sink_params.i s.sink_params.p s.sink_params.r
  ({ s with set_sink_msg := m }, m)

/-- Method `update_status_msg`. -/
def update_status_msg (s : PsbState) : PsbState × Option CanMessage :=
  let m := status_msg s.status_params.output s.status_params.remote_control
  ({ s with set_status_msg := m }, m)

/-- Setter `set_sour_params(u=None, i=None, p=None, r=0)`: each argument
is an `Option`; `none` models an omitted (`None`) argument and is
skipped, while Python's default `r = 0` corresponds to passing
`some 0` at call sites that omit `r`.  Every provided field overwrites
the store, then the source message is rebuilt and returned. -/
def set_sour_params (s : PsbState) (u i p : Option ℚ) (r : Option ℤ) :
    PsbState × Option CanMessage :=
  let sp := s.sour_params
  let sp := match u with | some v => { sp with u := v } | none => sp
  let sp := match i with | some v => { sp with i := v } | none => sp
  let sp := match p with | some v => { sp with p := v } | none => sp
  let sp := match r with | some v => { sp with r := v } | none => sp
  update_set_sour_msg { s with sour_params := sp }

/-- Setter `set_sink_params(u=None, i=None, p=None, r=0)`: a provided
`u` is forwarded to `set_sour_params(u=u)` (which therefore runs with
its own defaults `i=None, p=None, r=0`); then the provided sink fields
overwrite the sink store and the sink message is rebuilt and
returned. -/
def set_sink_params (s : PsbState) (u i p : Option ℚ) (r : Option ℤ) :
    PsbState × Option CanMessage :=
  let s := match u with
    | some v => (set_sour_params s (some v) none none (some 0)).1
    | none => s
  let kp := s.sink_params
  let kp := match i with | some v => { kp with i := v } | none => kp
  let kp := match p with | some v => { kp with p := v } | none => kp
  let kp := match r with | some v => { kp with r := v } | none => kp
  update_set_sink_msg { s with sink_params := kp }

/-- Setter `remote_on()`. -/
def remote_on (s : PsbState) : PsbState × Option CanMessage :=
  update_status_msg
    { s with status_params := { s.status_params with remote_control := 1 } }

/-- Setter `remote_off()`. -/
def remote_off (s : PsbState) : PsbState × Option CanMessage :=
  update_status_msg
    { s with status_params := { s.status_params with remote_control := 0 } }

/-- Setter `output_on()`. -/
def output_on (s : PsbState) : PsbState × Option CanMessage :=
  update_status_msg
    { s with status_params := { s.status_params with output := 1 } }

/-- Setter `output_off()`. -/
def output_off (s : PsbState) : PsbState × Option CanMessage :=
  update_status_msg
    { s with status_params := { s.status_params with output := 0 } }

/-- Result of a successful `decode_msg` dispatch, one variant per
supported read id. -/
inductive Decoded where
  | actual : ActualVals → Decoded
  | status : StatusVals → Decoded
  | sour : SourVals → Decoded
  | sink : SinkVals → Decoded
  deriving DecidableEq, Repr

/-- Method `decode_msg(msg)`: inside the `try` block the receive time
for `msg.arbitration_id` is recorded FIRST (`self._prev_recv_time[...]
= time.time()` — an assignment that never raises), and only then is the
dispatch dict indexed; a miss raises `KeyError`, re-raised as the
unsupported-id `ValueError`, with the time stamp already written.  On a
supported id the matching decode method runs and its result dict also
overwrites the corresponding value cache. -/
def decode_msg (s : PsbState) (now : ℚ) (msg : CanMessage) :
    Except DecodeErr Decoded × PsbState :=
  let s1 := { s with
    prev_recv_time := dict_set s.prev_recv_time msg.arbitration_id now }
  if msg.arbitration_id = CycleReadIdAllocations.ACTUAL_VALUES then
    match decode_actual_values s.devices msg with
    | .ok v => (.ok (.actual v), { s1 with actual_vals := some v })
    | .error e => (.error e, s1)
  else if msg.arbitration_id = CycleReadIdAllocations.STATUS then
    match decode_status_msg msg with
    | .ok v => (.ok (.status v), { s1 with status_vals := some v })
    | .error e => (.error e, s1)
  else if msg.arbitration_id = CycleReadIdAllocations.SET_VALUES_PS then
    match decode_set_sour_values s.devices msg with
    | .ok v => (.ok (.sour v), { s1 with set_sour_vals := some v })
    | .error e => (.error e, s1)
  else if msg.arbitration_id = CycleReadIdAllocations.SET_VALUES_EL then
    match decode_set_sink_values s.devices msg with
    | .ok v => (.ok (.sink v), { s1 with set_sink_vals := some v })
    | .error e => (.error e, s1)
  else (.error .unsupported_id, s1)

/-- Method `longest_time_since_recv()`: the source returns
`max(self._prev_recv_time.values())` — the maximum of the stored
absolute timestamps.  Python's `max` on an empty sequence raises,
modelled by `none`. -/
def longest_time_since_recv (s : PsbState) : Option ℚ :=
  (s.prev_recv_time.map Prod.snd).max?

/-- Modelled from the spec: what §4.5 says `longest_time_since_recv()`
returns — "the maximum age (current time minus earliest timestamp)
across all supported ids".  Stated as a second definition only to be
compared with `longest_time_since_recv`, the definition taken from the
source. -/
def longest_time_since_recv_spec (s : PsbState) (now : ℚ) : Option ℚ :=
  ((s.prev_recv_time.map Prod.snd).min?).map (fun t => now - t)

/-- Harness variant of `_decode_set_sour_values` with the decoder's
byte order matched to the encoder's big-endian order, as the round-trip
property of spec §8 prescribes ("when encode/decode byte orders are
matched in the test harness per their documented asymmetry"); it is the
source decoder with `<HHHH` read as `>HHHH`, all else unchanged. -/
def decode_set_sour_values_matched (devices : ℕ) (msg : CanMessage) :
    Except DecodeErr SourVals :=
  if msg.arbitration_id ≠ CycleSendIdAllocations.SET_VALUES_1_PS then
    .error .wrong_arbitration_id
  else if msg.data.length = 8 then
    .ok ⟨(be16At msg.data 0 : ℚ) * scale_u,
         (be16At msg.data 2 : ℚ) * scale_i * (devices : ℚ),
         (be16At msg.data 4 : ℚ) * scale_p * (devices : ℚ),
         (be16At msg.data 6 : ℚ) * scale_r⟩
  else .error .struct_error

/-! Helper lemmas. -/

lemma packH_eq_some {v : ℤ} (h0 : 0 ≤ v) (h1 : v < 65536) :
    packH v = some (be16 v.toNat) := by
  simp [packH, h0, h1]

lemma packH_length {v : ℤ} {l : List ℕ} (h : packH v = some l) : l.length = 2 := by
  unfold packH at h
  split at h
  · cases h
    simp [be16]
  · cases h

lemma pyTrunc_of_nonneg {q : ℚ} (h : 0 ≤ q) : pyTrunc q = ⌊q⌋ := by
  simp [pyTrunc, h]

lemma floor_scale_le {x sc : ℚ} (hsc : 0 < sc) :
    (⌊x / sc⌋ : ℚ) * sc ≤ x := by
  have h := Int.floor_le (x / sc)
  have := mul_le_mul_of_nonneg_right h hsc.le
  rwa [div_mul_cancel₀ x hsc.ne'] at this

lemma floor_scale_err {x sc : ℚ} (hsc : 0 < sc) :
    x - (⌊x / sc⌋ : ℚ) * sc < sc := by
  have h := Int.lt_floor_add_one (x / sc)
  have := (div_lt_iff₀ hsc).mp h
  nlinarith

lemma decode_matched_packed (devices a b c d : ℕ) :
    decode_set_sour_values_matched devices
      ⟨CycleSendIdAllocations.SET_VALUES_1_PS, 8, be16 a ++ be16 b ++ be16 c ++ be16 d⟩ =
    .ok ⟨(a : ℚ) * scale_u, (b : ℚ) * scale_i * (devices : ℚ),
         (c : ℚ) * scale_p * (devices : ℚ), (d : ℚ) * scale_r⟩ := by
  have ha : 256 * (a / 256) + a % 256 = a := Nat.div_add_mod a 256
  have hb : 256 * (b / 256) + b % 256 = b := Nat.div_add_mod b 256
  have hc : 256 * (c / 256) + c % 256 = c := Nat.div_add_mod c 256
  have hd : 256 * (d / 256) + d % 256 = d := Nat.div_add_mod d 256
  simp [decode_set_sour_values_matched, be16, be16At, List.getD, ha, hb, hc, hd]

/-! Claim theorems. -/

/-- Claim C1: for every valid `(u, i)` pair — nonnegative setpoints all of
whose scaled raw counts (including the derived power count) fit in 16
bits — decoding the source-set message produced by encoding `(u, i)`,
with the decoder's byte order matched to the encoder's big-endian order,
recovers `u` within one raw-count unit `scale_u` and `i` within one
raw-count unit `scale_i * DEVICES_AMOUNT`, the error being a downward
truncation error only. -/
theorem c1_encode_decode_round_trip (u i : ℚ) (hu : 0 ≤ u) (hi : 0 ≤ i)
    (hu16 : pyTrunc (u / scale_u) < 65536)
    (hi16 : pyTrunc (i / scale_i / (DEVICES_AMOUNT : ℚ)) < 65536)
    (hp16 : pyTrunc (u * i / scale_p / (DEVICES_AMOUNT : ℚ)) < 65536) :
    ∃ msg vals,
      set_sour_values u i none 0 = some msg ∧
      decode_set_sour_values_matched DEVICES_AMOUNT msg = .ok vals ∧
      vals.u ≤ u ∧ u - vals.u < scale_u ∧
      vals.i ≤ i ∧ i - vals.i < scale_i * (DEVICES_AMOUNT : ℚ) := by
  have hsu : (0 : ℚ) < scale_u := by norm_num [scale_u]
  have hsi : (0 : ℚ) < scale_i := by norm_num [scale_i]
  have hsp : (0 : ℚ) < scale_p := by norm_num [scale_p]
  have hD : ((DEVICES_AMOUNT : ℕ) : ℚ) = 3 := by norm_num [DEVICES_AMOUNT]
  have hqu : 0 ≤ u / scale_u := div_nonneg hu hsu.le
  have hqi : 0 ≤ i / scale_i / (DEVICES_AMOUNT : ℚ) := by
    rw [hD]
    positivity
  have hqp : 0 ≤ u * i / scale_p / (DEVICES_AMOUNT : ℚ) := by
    rw [hD]
    have := mul_nonneg hu hi
    positivity
  have hu0 : 0 ≤ pyTrunc (u / scale_u) := by
    rw [pyTrunc_of_nonneg hqu]
    exact Int.floor_nonneg.mpr hqu
  have hi0 : 0 ≤ pyTrunc (i / scale_i / (DEVICES_AMOUNT : ℚ)) := by
    rw [pyTrunc_of_nonneg hqi]
    exact Int.floor_nonneg.mpr hqi
  have hp0 : 0 ≤ pyTrunc (u * i / scale_p / (DEVICES_AMOUNT : ℚ)) := by
    rw [pyTrunc_of_nonneg hqp]
    exact Int.floor_nonneg.mpr hqp
  set uR := pyTrunc (u / scale_u) with huR
  set iR := pyTrunc (i / scale_i / (DEVICES_AMOUNT : ℚ)) with hiR
  set pR := pyTrunc (u * i / scale_p / (DEVICES_AMOUNT : ℚ)) with hpR
  have hmsg : set_sour_values u i none 0 =
      some ⟨CycleSendIdAllocations.SET_VALUES_1_PS, 8,
        be16 uR.toNat ++ be16 iR.toNat ++ be16 pR.toNat ++ be16 ((0 : ℤ).toNat)⟩ := by
    simp only [set_sour_values, Option.getD]
    rw [packH_eq_some hu0 hu16, packH_eq_some hi0 hi16, packH_eq_some hp0 hp16,
      packH_eq_some (le_refl (0 : ℤ)) (by norm_num)]
  refine ⟨⟨CycleSendIdAllocations.SET_VALUES_1_PS, 8,
      be16 uR.toNat ++ be16 iR.toNat ++ be16 pR.toNat ++ be16 ((0 : ℤ).toNat)⟩,
    ⟨(uR.toNat : ℚ) * scale_u,
     (iR.toNat : ℚ) * scale_i * (DEVICES_AMOUNT : ℚ),
     (pR.toNat : ℚ) * scale_p * (DEVICES_AMOUNT : ℚ),
     (((0 : ℤ).toNat : ℕ) : ℚ) * scale_r⟩, hmsg, ?_, ?_⟩
  · exact decode_matched_packed DEVICES_AMOUNT uR.toNat iR.toNat pR.toNat (0 : ℤ).toNat
  · have hcastu : ((uR.toNat : ℕ) : ℚ) = ((uR : ℤ) : ℚ) := by
      exact_mod_cast congrArg (fun z : ℤ => (z : ℚ)) (Int.toNat_of_nonneg hu0)
    have hcasti : ((iR.toNat : ℕ) : ℚ) = ((iR : ℤ) : ℚ) := by
      exact_mod_cast congrArg (fun z : ℤ => (z : ℚ)) (Int.toNat_of_nonneg hi0)
    have hfu : (uR : ℚ) = (⌊u / scale_u⌋ : ℤ) := by
      rw [huR, pyTrunc_of_nonneg hqu]
    have hfi : (iR : ℚ) = (⌊i / (scale_i * (DEVICES_AMOUNT : ℚ))⌋ : ℤ) := by
      rw [hiR, pyTrunc_of_nonneg hqi, div_div]
    refine ⟨?_, ?_, ?_, ?_⟩
    · rw [hcastu, hfu]
      exact floor_scale_le hsu
    · rw [hcastu, hfu]
      exact floor_scale_err hsu
    · have hpos : (0 : ℚ) < scale_i * (DEVICES_AMOUNT : ℚ) := by
        rw [hD]
        positivity
      have hle := floor_scale_le (x := i) hpos
      calc (iR.toNat : ℚ) * scale_i * (DEVICES_AMOUNT : ℚ)
          = (⌊i / (scale_i * (DEVICES_AMOUNT : ℚ))⌋ : ℚ) * (scale_i * (DEVICES_AMOUNT : ℚ)) := by
            rw [hcasti, hfi, mul_assoc]
        _ ≤ i := hle
    · have hpos : (0 : ℚ) < scale_i * (DEVICES_AMOUNT : ℚ) := by
        rw [hD]
        positivity
      have herr := floor_scale_err (x := i) hpos
      have heq : (iR.toNat : ℚ) * scale_i * (DEVICES_AMOUNT : ℚ)
          = (⌊i / (scale_i * (DEVICES_AMOUNT : ℚ))⌋ : ℚ) * (scale_i * (DEVICES_AMOUNT : ℚ)) := by
        rw [hcasti, hfi, mul_assoc]
      rw [heq]
      exact herr

/-- Claim C1 witness: the round trip at the concrete pair
`(u, i) = (5, 2)`, all hypotheses discharged by evaluation. -/
theorem c1_encode_decode_round_trip_witness :
    ((0 : ℚ) ≤ 5 ∧ (0 : ℚ) ≤ 2 ∧
     pyTrunc ((5 : ℚ) / scale_u) < 65536 ∧
     pyTrunc ((2 : ℚ) / scale_i / (DEVICES_AMOUNT : ℚ)) < 65536 ∧
     pyTrunc ((5 * 2 : ℚ) / scale_p / (DEVICES_AMOUNT : ℚ)) < 65536) ∧
    (∃ msg vals,
      set_sour_values 5 2 none 0 = some msg ∧
      decode_set_sour_values_matched DEVICES_AMOUNT msg = .ok vals ∧
      vals.u ≤ 5 ∧ 5 - vals.u < scale_u ∧
      vals.i ≤ 2 ∧ 2 - vals.i < scale_i * (DEVICES_AMOUNT : ℚ)) :=
  ⟨⟨by norm_num, by norm_num, by norm_num [pyTrunc, scale_u],
    by norm_num [pyTrunc, scale_i, DEVICES_AMOUNT],
    by norm_num [pyTrunc, scale_p, DEVICES_AMOUNT]⟩,
   c1_encode_decode_round_trip 5 2 (by norm_num) (by norm_num)
     (by norm_num [pyTrunc, scale_u])
     (by norm_num [pyTrunc, scale_i, DEVICES_AMOUNT])
     (by norm_num [pyTrunc, scale_p, DEVICES_AMOUNT])⟩

/-- Claim C2 (code bug): `longest_time_since_recv()` returns
`max(self._prev_recv_time.values())` — the newest stored absolute
timestamp — not the maximum age `now - min(timestamps)` the spec
describes.  At timestamps `{0x101: 10, 0x100: 5, 0x102: 10, 0x105: 10}`
the source returns `10` regardless of the current time, while the
spec's value is `20 - 5 = 15` at time 20 and grows to `25` at time 30;
the code's value never increases with wall-clock time. -/
theorem c2_longest_time_since_recv_code_bug :
    longest_time_since_recv { initState 0 3 with
        prev_recv_time := [(0x101, 10), (0x100, 5), (0x102, 10), (0x105, 10)] } = some 10
    ∧ longest_time_since_recv_spec { initState 0 3 with
        prev_recv_time := [(0x101, 10), (0x100, 5), (0x102, 10), (0x105, 10)] } 20 = some 15
    ∧ longest_time_since_recv_spec { initState 0 3 with
        prev_recv_time := [(0x101, 10), (0x100, 5), (0x102, 10), (0x105, 10)] } 30 = some 25
    ∧ ((10 : ℚ) ≠ 15) := by
  refine ⟨?_, ?_, ?_, by norm_num⟩
  · simp [longest_time_since_recv, List.max?]
    norm_num [max_def]
  · simp [longest_time_since_recv_spec, List.min?]
    norm_num [min_def]
  · simp [longest_time_since_recv_spec, List.min?]
    norm_num [min_def]

/-- Claim C3 counterexample: the encoder does NOT scale the `r` field.
Encoding `(u, i, p, r) = (0, 0, 0, 1)` packs the raw value `1` into the
last big-endian field, whereas the claimed formula
`r_raw = trunc(r / scale_r)` would give `80`. -/
theorem c3_r_field_counterexample :
    set_sour_values 0 0 (some 0) 1 =
      some ⟨CycleSendIdAllocations.SET_VALUES_1_PS, 8, [0, 0, 0, 0, 0, 0, 0, 1]⟩
    ∧ pyTrunc ((1 : ℚ) / scale_r) = 80
    ∧ be16At [0, 0, 0, 0, 0, 0, 0, 1] 6 = 1
    ∧ ((1 : ℤ) ≠ 80) := by
  refine ⟨?_, ?_, by simp [be16At, List.getD], by decide⟩
  · norm_num [set_sour_values, pyTrunc, packH, be16, scale_u, scale_i, scale_p, DEVICES_AMOUNT]
  · rw [pyTrunc, scale_r]
    norm_num

/-- Claim C3 as amended: the source-set message consists of four
unsigned 16-bit big-endian fields in order `(u_raw, i_raw, p_raw,
r_raw)` with `u_raw = trunc(u/scale_u)`,
`i_raw = trunc(i/scale_i/DEVICES_AMOUNT)`,
`p_raw = trunc(p/scale_p/DEVICES_AMOUNT)`, but `r_raw = r`: the stored
resistance value is packed directly, without division by `scale_r`. -/
theorem c3_source_set_fields_amended (u i p : ℚ) (r : ℤ)
    (hu0 : 0 ≤ pyTrunc (u / scale_u)) (hu16 : pyTrunc (u / scale_u) < 65536)
    (hi0 : 0 ≤ pyTrunc (i / scale_i / (DEVICES_AMOUNT : ℚ)))
    (hi16 : pyTrunc (i / scale_i / (DEVICES_AMOUNT : ℚ)) < 65536)
    (hp0 : 0 ≤ pyTrunc (p / scale_p / (DEVICES_AMOUNT : ℚ)))
    (hp16 : pyTrunc (p / scale_p / (DEVICES_AMOUNT : ℚ)) < 65536)
    (hr0 : 0 ≤ r) (hr16 : r < 65536) :
    set_sour_values u i (some p) r =
      some ⟨CycleSendIdAllocations.SET_VALUES_1_PS, 8,
        be16 (pyTrunc (u / scale_u)).toNat ++
        be16 (pyTrunc (i / scale_i / (DEVICES_AMOUNT : ℚ))).toNat ++
        be16 (pyTrunc (p / scale_p / (DEVICES_AMOUNT : ℚ))).toNat ++
        be16 r.toNat⟩ := by
  simp only [set_sour_values, Option.getD]
  rw [packH_eq_some hu0 hu16, packH_eq_some hi0 hi16, packH_eq_some hp0 hp16,
    packH_eq_some hr0 hr16]

/-- Claim C3 witness: the amended field layout at
`(u, i, p, r) = (5, 2, 10, 1)`. -/
theorem c3_source_set_fields_amended_witness :
    ((0 : ℤ) ≤ pyTrunc ((5 : ℚ) / scale_u) ∧ pyTrunc ((5 : ℚ) / scale_u) < 65536 ∧
     (0 : ℤ) ≤ pyTrunc ((2 : ℚ) / scale_i / (DEVICES_AMOUNT : ℚ)) ∧
     pyTrunc ((2 : ℚ) / scale_i / (DEVICES_AMOUNT : ℚ)) < 65536 ∧
     (0 : ℤ) ≤ pyTrunc ((10 : ℚ) / scale_p / (DEVICES_AMOUNT : ℚ)) ∧
     pyTrunc ((10 : ℚ) / scale_p / (DEVICES_AMOUNT : ℚ)) < 65536) ∧
    set_sour_values 5 2 (some 10) 1 =
      some ⟨CycleSendIdAllocations.SET_VALUES_1_PS, 8,
        be16 (pyTrunc ((5 : ℚ) / scale_u)).toNat ++
        be16 (pyTrunc ((2 : ℚ) / scale_i / (DEVICES_AMOUNT : ℚ))).toNat ++
        be16 (pyTrunc ((10 : ℚ) / scale_p / (DEVICES_AMOUNT : ℚ))).toNat ++
        be16 (1 : ℤ).toNat⟩ :=
  ⟨⟨by norm_num [pyTrunc, scale_u], by norm_num [pyTrunc, scale_u],
    by norm_num [pyTrunc, scale_i, DEVICES_AMOUNT],
    by norm_num [pyTrunc, scale_i, DEVICES_AMOUNT],
    by norm_num [pyTrunc, scale_p, DEVICES_AMOUNT],
    by norm_num [pyTrunc, scale_p, DEVICES_AMOUNT]⟩,
   c3_source_set_fields_amended 5 2 10 1
     (by norm_num [pyTrunc, scale_u]) (by norm_num [pyTrunc, scale_u])
     (by norm_num [pyTrunc, scale_i, DEVICES_AMOUNT])
     (by norm_num [pyTrunc, scale_i, DEVICES_AMOUNT])
     (by norm_num [pyTrunc, scale_p, DEVICES_AMOUNT])
     (by norm_num [pyTrunc, scale_p, DEVICES_AMOUNT])
     (by norm_num) (by norm_num)⟩

/-- Claim C4 (code bug): `decode_msg` on the unsupported id
`LIMITS_1_PS` (0x103) raises the unsupported-id error and leaves every
cached value mapping unchanged, but it does NOT leave all codec state
unchanged: the receive-time dict gains an entry for 0x103, because the
timestamp assignment precedes the dispatch lookup in the `try` block. -/
theorem c4_unsupported_id_mutates_recv_time :
    (decode_msg (initState 0 3) 7
        ⟨CycleReadIdAllocations.LIMITS_1_PS, 8, [0,0,0,0,0,0,0,0]⟩).1 =
      .error .unsupported_id
    ∧ (decode_msg (initState 0 3) 7
        ⟨CycleReadIdAllocations.LIMITS_1_PS, 8, [0,0,0,0,0,0,0,0]⟩).2.prev_recv_time =
        (initState 0 3).prev_recv_time ++ [(CycleReadIdAllocations.LIMITS_1_PS, 7)]
    ∧ (decode_msg (initState 0 3) 7
        ⟨CycleReadIdAllocations.LIMITS_1_PS, 8, [0,0,0,0,0,0,0,0]⟩).2.prev_recv_time ≠
        (initState 0 3).prev_recv_time
    ∧ (decode_msg (initState 0 3) 7
        ⟨CycleReadIdAllocations.LIMITS_1_PS, 8, [0,0,0,0,0,0,0,0]⟩).2.actual_vals =
        (initState 0 3).actual_vals
    ∧ (decode_msg (initState 0 3) 7
        ⟨CycleReadIdAllocations.LIMITS_1_PS, 8, [0,0,0,0,0,0,0,0]⟩).2.status_vals =
        (initState 0 3).status_vals
    ∧ (decode_msg (initState 0 3) 7
        ⟨CycleReadIdAllocations.LIMITS_1_PS, 8, [0,0,0,0,0,0,0,0]⟩).2.set_sour_vals =
        (initState 0 3).set_sour_vals
    ∧ (decode_msg (initState 0 3) 7
        ⟨CycleReadIdAllocations.LIMITS_1_PS, 8, [0,0,0,0,0,0,0,0]⟩).2.set_sink_vals =
        (initState 0 3).set_sink_vals := by
  refine ⟨rfl, ?_, ?_, rfl, rfl, rfl, rfl⟩
  · simp [decode_msg, initState, dict_set, supported_read_can_ids,
      CycleReadIdAllocations.LIMITS_1_PS, CycleReadIdAllocations.STATUS,
      CycleReadIdAllocations.ACTUAL_VALUES, CycleReadIdAllocations.SET_VALUES_PS,
      CycleReadIdAllocations.SET_VALUES_EL, CycleReadIdAllocations.BASE_ID_CYCLE_READ]
  · intro h
    have hlen := congrArg List.length h
    simp [decode_msg, initState, dict_set, supported_read_can_ids,
      CycleReadIdAllocations.LIMITS_1_PS, CycleReadIdAllocations.STATUS,
      CycleReadIdAllocations.ACTUAL_VALUES, CycleReadIdAllocations.SET_VALUES_PS,
      CycleReadIdAllocations.SET_VALUES_EL, CycleReadIdAllocations.BASE_ID_CYCLE_READ] at hlen

/-- Claim C5: decoding an `ACTUAL_VALUES` message reads the first six
payload bytes as three unsigned 16-bit big-endian fields, ignores any
remaining payload bytes, and scales them by `scale_u`,
`scale_i * device_count`, `scale_p * device_count`; the raw triple
`(1000, 1000, 1000)` with three devices yields exactly
`(19.073777, 4.577706, 1716.639963)`. -/
theorem c5_actual_values_decode :
    (∀ (devices dlc b0 b1 b2 b3 b4 b5 : ℕ) (rest : List ℕ),
      decode_actual_values devices
          ⟨CycleReadIdAllocations.ACTUAL_VALUES, dlc, b0::b1::b2::b3::b4::b5::rest⟩ =
        .ok ⟨((256 * b0 + b1 : ℕ) : ℚ) * scale_u,
             ((256 * b2 + b3 : ℕ) : ℚ) * scale_i * (devices : ℚ),
             ((256 * b4 + b5 : ℕ) : ℚ) * scale_p * (devices : ℚ)⟩)
    ∧ decode_actual_values 3 ⟨CycleReadIdAllocations.ACTUAL_VALUES, 8, [3,232,3,232,3,232,0,0]⟩ =
        .ok ⟨19073777 / 1000000, 4577706 / 1000000, 1716639963 / 1000000⟩ := by
  constructor
  · intro devices dlc b0 b1 b2 b3 b4 b5 rest
    simp [decode_actual_values, be16At, List.getD]
  · norm_num [decode_actual_values, be16At, List.getD, scale_u, scale_i, scale_p]

/-- Claim C6: decoding an echoed `SET_VALUES_PS` message unpacks the
eight payload bytes as four unsigned 16-bit LITTLE-endian fields
`(u, i, p, r)` and converts them with the same formulas as
`ACTUAL_VALUES` plus `r * scale_r`; the second conjunct exhibits the
byte-order opposition to the encoder: a big-endian read of an encoded
16-bit value recovers it, while the decoder's little-endian read of the
same two bytes swaps them. -/
theorem c6_set_values_ps_little_endian_decode :
    (∀ (devices dlc b0 b1 b2 b3 b4 b5 b6 b7 : ℕ),
      decode_set_sour_values devices
          ⟨CycleReadIdAllocations.SET_VALUES_PS, dlc, [b0,b1,b2,b3,b4,b5,b6,b7]⟩ =
        .ok ⟨((b0 + 256 * b1 : ℕ) : ℚ) * scale_u,
             ((b2 + 256 * b3 : ℕ) : ℚ) * scale_i * (devices : ℚ),
             ((b4 + 256 * b5 : ℕ) : ℚ) * scale_p * (devices : ℚ),
             ((b6 + 256 * b7 : ℕ) : ℚ) * scale_r⟩)
    ∧ (∀ v : ℕ, be16At (be16 v) 0 = v ∧ le16At (be16 v) 0 = v / 256 + 256 * (v % 256)) := by
  constructor
  · intro devices dlc b0 b1 b2 b3 b4 b5 b6 b7
    simp [decode_set_sour_values, le16At, List.getD]
  · intro v
    constructor
    · simp [be16At, be16, List.getD]
      omega
    · simp [le16At, be16, List.getD]

/-- Claim C7: the control message packs `output*2 + remote_control`
into the high byte of a 16-bit big-endian field with the low byte zero;
`output_on` followed by `remote_off` yields raw value 2 (payload
`[2, 0]`), and `output_off` plus `remote_on` yields raw value 1. -/
theorem c7_control_message_value :
    (∀ out rc : ℕ, out * 2 + rc < 256 →
      status_msg out rc = some ⟨CycleSendIdAllocations.CONTROL, 8, [out * 2 + rc, 0]⟩)
    ∧ (remote_off (output_on (initState 0 3)).1).2 =
        some ⟨CycleSendIdAllocations.CONTROL, 8, [2, 0]⟩
    ∧ (remote_on (output_off (initState 0 3)).1).2 =
        some ⟨CycleSendIdAllocations.CONTROL, 8, [1, 0]⟩ := by
  refine ⟨?_, ?_, ?_⟩
  · intro out rc h
    have h0 : (0 : ℤ) ≤ (out * 2 + rc : ℕ) * 256 := by positivity
    have h1 : ((out * 2 + rc : ℕ) : ℤ) * 256 < 65536 := by
      push_cast
      omega
    simp [status_msg, packH, h0, h1, be16]
    constructor
    · omega
    · omega
  · simp [remote_off, output_on, update_status_msg, initState, status_msg, packH, be16]
  · simp [remote_on, output_off, update_status_msg, initState, status_msg, packH, be16]

/-- Claim C7 witness: the general packing law at `output = 1`,
`remote_control = 0`. -/
theorem c7_control_message_value_witness :
    1 * 2 + 0 < 256 ∧
    status_msg 1 0 = some ⟨CycleSendIdAllocations.CONTROL, 8, [1 * 2 + 0, 0]⟩ :=
  ⟨by norm_num, c7_control_message_value.1 1 0 (by norm_num)⟩

/-- Claim C8 counterexample: on the STATUS payload whose big-endian
value is exactly bit 31, the decoded mapping has `uir_mode = true` and
`internal_remote_sensing = true` — two complement-convention flags
beyond the `sour_mode`/`slave` exceptions the claim allows, so "every
other defined flag false" is violated. -/
theorem c8_status_bit31_counterexample :
    (decode_status_msg ⟨CycleReadIdAllocations.STATUS, 8, [0,0,0,0,128,0,0,0]⟩).map
        StatusVals.uir_mode = .ok true
    ∧ (decode_status_msg ⟨CycleReadIdAllocations.STATUS, 8, [0,0,0,0,128,0,0,0]⟩).map
        StatusVals.internal_remote_sensing = .ok true
    ∧ int_from_bytes_be [0,0,0,0,128,0,0,0] = 2 ^ 31 :=
  ⟨rfl, rfl, rfl⟩

/-- Claim C8 as amended: decoding the STATUS payload with bit 31 set
and all other bits clear yields `remote_control = true` and every other
defined flag `false`, except the four complement-convention flags
`sour_mode` (bit 0 clear), `slave` (bit 4 clear), `uir_mode` (bit 28
clear) and `internal_remote_sensing` (bit 6 clear), which are `true`. -/
theorem c8_status_bit31_amended :
    decode_status_msg ⟨CycleReadIdAllocations.STATUS, 8, [0,0,0,0,128,0,0,0]⟩ =
      .ok { remote_control := true, dc_input_terminal := false, uir_mode := true,
            uip_mode := false, alarms := false, alarm_msp_map := false, alarm_ocd := false,
            alarm_ocp := false, alarm_opd := false, alarm_opp := false, alarm_ot := false,
            alarm_ovd := false, alarm_ovp := false, rem_sb := false, alarm_ucd := false,
            alarm_uvd := false, external_remote_sensing := false,
            internal_remote_sensing := true, function_gen_active := false, master := false,
            slave := true, input_output := false, sink_mode := false, sour_mode := true } :=
  rfl

/-- Claim C9 counterexample: from the default store (all zeros),
calling the high-level setter with `u = 5`, `i = 2` and `p` omitted
produces a power field of raw 0 — the previously stored `p = 0` — while
the claimed derivation `p = u * i = 10` would give raw 5. -/
theorem c9_power_default_counterexample :
    (set_sour_params (initState 0 3) (some 5) (some 2) none (some 0)).2 =
      some ⟨CycleSendIdAllocations.SET_VALUES_1_PS, 8, [1, 6, 1, 180, 0, 0, 0, 0]⟩
    ∧ pyTrunc ((5 * 2 : ℚ) / scale_p / (DEVICES_AMOUNT : ℚ)) = 5
    ∧ be16At [1, 6, 1, 180, 0, 0, 0, 0] 4 = 0
    ∧ ((0 : ℤ) ≠ 5) := by
  refine ⟨?_, ?_, by simp [be16At, List.getD], by decide⟩
  · norm_num [set_sour_params, update_set_sour_msg, initState, set_sour_values, pyTrunc,
      packH, be16, scale_u, scale_i, scale_p, DEVICES_AMOUNT,
      CycleSendIdAllocations.SET_VALUES_1_PS, CycleSendIdAllocations.BASE_ID_CYCLE_SEND]
    decide
  · rw [pyTrunc, scale_p, DEVICES_AMOUNT]
    norm_num

/-- Claim C9 as amended: a `set_sour_params` call without `p` keeps the
previously stored power setpoint and rebuilds the message from it — the
builder is always invoked with the stored `p`, never with `p = None`;
the `p = u * i` default exists only in the low-level builder
`_set_sour_values` when `p` is actually omitted there. -/
theorem c9_power_default_amended :
    (∀ (s : PsbState) (u i : ℚ),
      (set_sour_params s (some u) (some i) none (some 0)).1.sour_params.p = s.sour_params.p
      ∧ (set_sour_params s (some u) (some i) none (some 0)).2 =
          set_sour_values u i (some s.sour_params.p) 0)
    ∧ (∀ (u i : ℚ) (r : ℤ),
        set_sour_values u i none r = set_sour_values u i (some (u * i)) r) :=
  ⟨fun _ _ _ => ⟨rfl, rfl⟩, fun _ _ _ => rfl⟩

/-- Claim C10: `set_sink_params(u=v)` with `r` omitted forwards `v`
to `set_sour_params`, whose own default `r = 0` overwrites the stored
source resistance-ratio setpoint with 0 regardless of its previous
value; the source-set message is rebuilt from the updated store, and
whenever that rebuild succeeds its last big-endian field (`r_raw`,
bytes 6 and 7) is zero. -/
theorem c10_sink_voltage_resets_sour_r (s : PsbState) (v : ℚ) :
    ((set_sink_params s (some v) none none (some 0)).1.sour_params.r = 0)
    ∧ ((set_sink_params s (some v) none none (some 0)).1.sour_params.u = v)
    ∧ ((set_sink_params s (some v) none none (some 0)).1.set_sour_msg =
        set_sour_values v s.sour_params.i (some s.sour_params.p) 0)
    ∧ (∀ m : CanMessage,
        set_sour_values v s.sour_params.i (some s.sour_params.p) 0 = some m →
        m.data.length = 8 ∧ m.data.getD 6 0 = 0 ∧ m.data.getD 7 0 = 0) := by
  refine ⟨rfl, rfl, rfl, ?_⟩
  intro m hm
  have h0 : packH (0 : ℤ) = some [0, 0] := rfl
  simp only [set_sour_values, Option.getD, h0] at hm
  rcases hA : packH (pyTrunc (v / scale_u)) with _ | a <;> rw [hA] at hm
  · simp at hm
  rcases hB : packH (pyTrunc (s.sour_params.i / scale_i / (DEVICES_AMOUNT : ℚ))) with _ | b <;>
    rw [hB] at hm
  · simp at hm
  rcases hC : packH (pyTrunc (s.sour_params.p / scale_p / (DEVICES_AMOUNT : ℚ))) with _ | c <;>
    rw [hC] at hm
  · simp at hm
  obtain ⟨a0, a1, rfl⟩ := List.length_eq_two.mp (packH_length hA)
  obtain ⟨b0, b1, rfl⟩ := List.length_eq_two.mp (packH_length hB)
  obtain ⟨c0, c1, rfl⟩ := List.length_eq_two.mp (packH_length hC)
  simp at hm
  rw [← hm]
  simp [List.getD]

/-- Claim C10 witness: the reset observed from the default store with
`v = 5`; the rebuilt message is `[1, 6, 0, 0, 0, 0, 0, 0]`, whose
`r_raw` bytes are zero. -/
theorem c10_sink_voltage_resets_sour_r_witness :
    ((set_sink_params (initState 0 3) (some 5) none none (some 0)).1.sour_params.r = 0)
    ∧ (set_sour_values 5 (initState 0 3).sour_params.i (some (initState 0 3).sour_params.p) 0 =
        some ⟨CycleSendIdAllocations.SET_VALUES_1_PS, 8, [1, 6, 0, 0, 0, 0, 0, 0]⟩)
    ∧ (([1, 6, 0, 0, 0, 0, 0, 0] : List ℕ).length = 8
        ∧ ([1, 6, 0, 0, 0, 0, 0, 0] : List ℕ).getD 6 0 = 0
        ∧ ([1, 6, 0, 0, 0, 0, 0, 0] : List ℕ).getD 7 0 = 0) :=
  have hmsg : set_sour_values 5 (initState 0 3).sour_params.i
      (some (initState 0 3).sour_params.p) 0 =
      some ⟨CycleSendIdAllocations.SET_VALUES_1_PS, 8, [1, 6, 0, 0, 0, 0, 0, 0]⟩ := by
    norm_num [set_sour_values, initState, pyTrunc, packH, be16, scale_u, scale_i, scale_p,
      DEVICES_AMOUNT]
    decide
  ⟨(c10_sink_voltage_resets_sour_r (initState 0 3) 5).1, hmsg,
   (c10_sink_voltage_resets_sour_r (initState 0 3) 5).2.2.2
     ⟨CycleSendIdAllocations.SET_VALUES_1_PS, 8, [1, 6, 0, 0, 0, 0, 0, 0]⟩ hmsg⟩

end PsbCan
